import Mathlib

/-!
Verification of the multi-sensor server (`src/server.py`) against its
natural-language specification.

The Python classes are shallowly embedded: each sensor class becomes a state
structure plus pure Lean functions for its `update_reading` / `get_reading`
methods.  Hardware interaction (GPIO polling, timing loops, the DHT retry
protocol) cannot be embedded, so each measurement routine's *outcome* is an
`Option`-valued input: `none` models every failure path (simulation mode,
timeout, driver exception, out-of-range rejection), exactly as the Python
routines return `None` on those paths.  Timestamps are rationals (seconds);
Python floats are modelled by `ℚ`, with `round(x, n)` modelled as rounding
`x * 10^n` to the nearest integer.
-/

namespace SensorServer

/-- Timestamps and durations, in seconds (models `datetime` / `time.time()`). -/
abbrev Time := ℚ

/-- Model of Python `round(x, 2)`: round to 2 decimal places. -/
def round2 (x : ℚ) : ℚ := (round (x * 100) : ℚ) / 100

/-- Model of Python `round(x, 1)`: round to 1 decimal place. -/
def round1 (x : ℚ) : ℚ := (round (x * 10) : ℚ) / 10

/-- One alert record, with the exact fields built by `BaseSensor.generate_alert`
(server.py lines 67-86).  `Date` is the UTC generation time (the Python code
stores its ISO string, which compares like the timestamp itself). -/
structure Alert where
  AlertType : String
  assetId : String
  Description : String
  Date : Time
  Report : String
  App : String
  anchor : String
  Stage_x007b__x0023__x007d_ : String
  Failure_x0020_Class : String
  id : String
  Priority : String
  OperatorNumber : String
  OperatorName : String
  ManagerName : String
  ManagerNumber : String
  GoogleDriveURL : String
deriving DecidableEq, Repr

/-- Embedding of `BaseSensor.generate_alert` (server.py lines 67-86); `now` is
the wall-clock time at which the alert is generated. -/
def generate_alert (sensor_id asset_id : String) (now : Time)
    (alert_type description : String) (failure_class : String := "NaN") : Alert :=
  { AlertType := alert_type
    assetId := "MCN-02"
    Description := description
    Date := now
    Report := "NaN"
    App := "IoT Sensor System"
    anchor := asset_id
    Stage_x007b__x0023__x007d_ := "NaN"
    Failure_x0020_Class := failure_class
    id := sensor_id ++ "_" ++ toString (Int.floor now)
    Priority := "NaN"
    OperatorNumber := "NaN"
    OperatorName := "NaN"
    ManagerName := "NaN"
    ManagerNumber := "NaN"
    GoogleDriveURL := "NaN" }

/-! ### PIR motion sensor (server.py lines 529-619) -/

/-- Mutable state of `PIRSensor` (fields set in `__init__`, lines 529-539,
plus the `BaseSensor` fields `last_reading_time` and `alerts`). -/
structure PIRState where
  sensor_id : String
  asset_id : String
  data_pin : ℕ
  motion_detected : Bool
  motion_count : ℕ
  last_motion_time : Option Time
  motion_timeout : ℚ
  last_reading_time : Option Time
  alerts : List Alert
deriving DecidableEq, Repr

namespace PIRSensor

/-- The module-level instance `pir_sensor = PIRSensor(data_pin=23)`
(server.py line 626) with the constructor defaults of lines 530-537. -/
def pir_sensor : PIRState :=
  { sensor_id := "PIR-01"
    asset_id := "MOTION-SENSOR-01"
    data_pin := 23
    motion_detected := false
    motion_count := 0
    last_motion_time := none
    motion_timeout := 30
    last_reading_time := none
    alerts := [] }

/-- Embedding of `PIRSensor.update_reading` (server.py lines 569-600).
`motion` is the outcome of `read_motion()`: `none` on failure (simulation
mode or driver error).  Note the source Python tests `if motion:` — truthy
only for `True` — and sets `last_reading_time` unconditionally before that
test. -/
def update_reading (s : PIRState) (motion : Option Bool) (now : Time) : PIRState :=
  let s1 := { s with last_reading_time := some now }
  if motion = some true then
    let s2 :=
      if s1.motion_detected = false then
        { s1 with
          motion_count := s1.motion_count + 1
          alerts := s1.alerts ++
            [generate_alert s1.sensor_id s1.asset_id now "Motion Detected"
              ("Motion detected by sensor. Total detections: " ++
                toString (s1.motion_count + 1))
              "Motion_Detected"] }
      else s1
    { s2 with motion_detected := true, last_motion_time := some now }
  else
    let s2 := { s1 with motion_detected := false }
    match s2.last_motion_time with
    | some t =>
        if now - t > s2.motion_timeout then
          { s2 with alerts := s2.alerts ++
              [generate_alert s2.sensor_id s2.asset_id now "No Motion Alert"
                ("No motion detected for over " ++ toString s2.motion_timeout ++
                  " seconds")
                "Motion_Timeout"] }
        else s2
    | none => s2

/-- The dictionary returned by `PIRSensor.get_reading` (server.py lines
602-619).  `time_since_motion_seconds` is computed from the wall clock `now`
at query time; the Python `round(x, 2) if x else None` maps a zero elapsed
time to `None` (float `0.0` is falsy). -/
structure Reading where
  sensor_type : String
  sensor_id : String
  motion_detected : Bool
  motion_count : ℕ
  last_motion_time : Option Time
  time_since_motion_seconds : Option ℚ
  timestamp : Option Time
  status : String
  pins_data : ℕ
deriving DecidableEq, Repr

/-- Embedding of `PIRSensor.get_reading` (server.py lines 602-619); `now` is
the wall-clock time of the call (`datetime.now` at line 607). -/
def get_reading (s : PIRState) (now : Time) : Reading :=
  { sensor_type := "motion_sensor"
    sensor_id := s.sensor_id
    motion_detected := s.motion_detected
    motion_count := s.motion_count
    last_motion_time := s.last_motion_time
    time_since_motion_seconds :=
      match s.last_motion_time with
      | some t => if now - t = 0 then none else some (round2 (now - t))
      | none => none
    timestamp := s.last_reading_time
    status := if s.last_reading_time.isSome then "active" else "no_reading"
    pins_data := s.data_pin }

/-- Iterate `update_reading` over a list of successful motion samples
`(motion value, sample time)`, as the background poller does (server.py lines
813-819 call `update_reading` once per round). -/
def run (s : PIRState) (samples : List (Bool × Time)) : PIRState :=
  samples.foldl (fun st p => update_reading st (some p.1) p.2) s

end PIRSensor

/-! ### Ultrasonic distance sensor (server.py lines 88-199) -/

/-- Mutable state of `UltrasonicSensor` (constructor lines 89-96 plus the
`BaseSensor` fields). -/
structure UltrasonicState where
  sensor_id : String
  asset_id : String
  trigger_pin : ℕ
  echo_pin : ℕ
  distance : ℚ
  min_distance_threshold : ℚ
  max_distance_threshold : ℚ
  last_reading_time : Option Time
  alerts : List Alert
deriving DecidableEq, Repr

namespace UltrasonicSensor

/-- The module-level instance `ultrasonic_sensor = UltrasonicSensor(trigger_pin=18,
echo_pin=24)` (server.py line 622). -/
def ultrasonic_sensor : UltrasonicState :=
  { sensor_id := "ULTRASONIC-01"
    asset_id := "DIST-SENSOR-01"
    trigger_pin := 18
    echo_pin := 24
    distance := 0
    min_distance_threshold := 10
    max_distance_threshold := 200
    last_reading_time := none
    alerts := [] }

/-- Pure tail of `UltrasonicSensor.measure_distance` (server.py lines 149-158),
given the echo pulse edge times recorded by the polling loops.  The earlier
paths of the method (simulation mode, either 100 ms timeout, a driver
exception) all return `None` before reaching this computation, and are
modelled by feeding `update_reading` a `none` sample. -/
def measure_distance (pulse_start pulse_end : Time) : Option ℚ :=
  let pulse_duration := pulse_end - pulse_start
  let distance := pulse_duration * 34300 / 2
  if 2 ≤ distance ∧ distance ≤ 400 then some (round2 distance) else none

/-- Embedding of `UltrasonicSensor.update_reading` (server.py lines 165-186);
`distance?` is the outcome of `measure_distance()`. -/
def update_reading (s : UltrasonicState) (distance? : Option ℚ) (now : Time) :
    UltrasonicState :=
  match distance? with
  | none => s
  | some distance =>
      let s2 := { s with distance := distance, last_reading_time := some now }
      if distance < s2.min_distance_threshold then
        { s2 with alerts := s2.alerts ++
            [generate_alert s2.sensor_id s2.asset_id now "Proximity Alert"
              ("Object detected within " ++ toString s2.min_distance_threshold ++
                "cm. Current distance: " ++ toString distance ++ "cm")
              "Proximity_Warning"] }
      else if distance > s2.max_distance_threshold then
        { s2 with alerts := s2.alerts ++
            [generate_alert s2.sensor_id s2.asset_id now "Range Alert"
              ("No object detected within range. Current distance: " ++
                toString distance ++ "cm")
              "Range_Warning"] }
      else s2

/-- The dictionary returned by `UltrasonicSensor.get_reading` (server.py lines
188-199). -/
structure Reading where
  sensor_type : String
  sensor_id : String
  distance_cm : ℚ
  distance_inches : ℚ
  timestamp : Option Time
  status : String
  pins_trigger : ℕ
  pins_echo : ℕ
deriving DecidableEq, Repr

/-- Embedding of `UltrasonicSensor.get_reading` (server.py lines 188-199). -/
def get_reading (s : UltrasonicState) : Reading :=
  { sensor_type := "ultrasonic"
    sensor_id := s.sensor_id
    distance_cm := s.distance
    distance_inches := round2 (s.distance / (2.54 : ℚ))
    timestamp := s.last_reading_time
    status := if s.last_reading_time.isSome then "active" else "no_reading"
    pins_trigger := s.trigger_pin
    pins_echo := s.echo_pin }

end UltrasonicSensor

/-! ### MQ-135 air-quality sensor (server.py lines 201-314) -/

/-- Mutable state of `MQ135Sensor` (constructor lines 202-210 plus the
`BaseSensor` fields). -/
structure MQ135State where
  sensor_id : String
  asset_id : String
  digital_pin : ℕ
  analog_pin : ℕ
  air_quality_ppm : ℚ
  gas_detected : Bool
  danger_threshold : ℚ
  warning_threshold : ℚ
  last_reading_time : Option Time
  alerts : List Alert
deriving DecidableEq, Repr

namespace MQ135Sensor

/-- The module-level instance `mq135_sensor = MQ135Sensor(digital_pin=25,
analog_pin=26)` (server.py line 623). -/
def mq135_sensor : MQ135State :=
  { sensor_id := "MQ135-01"
    asset_id := "AIR-QUALITY-01"
    digital_pin := 25
    analog_pin := 26
    air_quality_ppm := 0
    gas_detected := false
    danger_threshold := 1000
    warning_threshold := 500
    last_reading_time := none
    alerts := [] }

/-- Embedding of `MQ135Sensor.update_reading` (server.py lines 270-294);
`result` is the outcome of `read_air_quality()`: `none` models the `(None,
None)` tuple returned in simulation mode or on a driver exception. -/
def update_reading (s : MQ135State) (result : Option (Bool × ℚ)) (now : Time) :
    MQ135State :=
  match result with
  | none => s
  | some (gas_detected, ppm) =>
      let s2 := { s with gas_detected := gas_detected, air_quality_ppm := ppm,
                         last_reading_time := some now }
      if ppm > s2.danger_threshold then
        { s2 with alerts := s2.alerts ++
            [generate_alert s2.sensor_id s2.asset_id now "Air Quality Critical"
              ("Dangerous air quality detected: " ++ toString ppm ++
                " PPM. Immediate action required.")
              "Air_Quality_Critical"] }
      else if ppm > s2.warning_threshold then
        { s2 with alerts := s2.alerts ++
            [generate_alert s2.sensor_id s2.asset_id now "Air Quality Warning"
              ("Poor air quality detected: " ++ toString ppm ++
                " PPM. Monitor closely.")
              "Air_Quality_Warning"] }
      else s2

/-- The dictionary returned by `MQ135Sensor.get_reading` (server.py lines
296-314). -/
structure Reading where
  sensor_type : String
  sensor_id : String
  air_quality_ppm : ℚ
  gas_detected : Bool
  quality_level : String
  timestamp : Option Time
  status : String
  pins_digital : ℕ
  pins_analog : ℕ
deriving DecidableEq, Repr

/-- Embedding of `MQ135Sensor.get_reading` (server.py lines 296-314). -/
def get_reading (s : MQ135State) : Reading :=
  { sensor_type := "air_quality"
    sensor_id := s.sensor_id
    air_quality_ppm := s.air_quality_ppm
    gas_detected := s.gas_detected
    quality_level :=
      if s.air_quality_ppm > s.danger_threshold then "Dangerous"
      else if s.air_quality_ppm > s.warning_threshold then "Poor"
      else "Good"
    timestamp := s.last_reading_time
    status := if s.last_reading_time.isSome then "active" else "no_reading"
    pins_digital := s.digital_pin
    pins_analog := s.analog_pin }

end MQ135Sensor

/-! ### DHT11 temperature/humidity sensor (server.py lines 316-409) -/

/-- Mutable state of `DHT11Sensor` (constructor lines 317-326 plus the
`BaseSensor` fields). -/
structure DHT11State where
  sensor_id : String
  asset_id : String
  data_pin : ℕ
  temperature : ℚ
  humidity : ℚ
  temp_high_threshold : ℚ
  temp_low_threshold : ℚ
  humidity_high_threshold : ℚ
  humidity_low_threshold : ℚ
  last_reading_time : Option Time
  alerts : List Alert
deriving DecidableEq, Repr

namespace DHT11Sensor

/-- The module-level instance `dht11_sensor = DHT11Sensor(data_pin=22)`
(server.py line 624). -/
def dht11_sensor : DHT11State :=
  { sensor_id := "DHT11-01"
    asset_id := "TEMP-HUM-01"
    data_pin := 22
    temperature := 0
    humidity := 0
    temp_high_threshold := 35
    temp_low_threshold := 5
    humidity_high_threshold := 80
    humidity_low_threshold := 20
    last_reading_time := none
    alerts := [] }

/-- Pure tail of `DHT11Sensor.read_temp_humidity` (server.py lines 342-351):
range validation and rounding of the raw `(humidity, temperature)` pair
delivered by the retry protocol; `none` models every `(None, None)` path
(simulation mode, retry exhaustion, driver exception, out-of-range values). -/
def read_temp_humidity (raw : Option (ℚ × ℚ)) : Option (ℚ × ℚ) :=
  match raw with
  | none => none
  | some (humidity, temperature) =>
      if 20 ≤ humidity ∧ humidity ≤ 95 ∧ 0 ≤ temperature ∧ temperature ≤ 60 then
        some (round1 humidity, round1 temperature)
      else none

/-- Embedding of `DHT11Sensor.update_reading` (server.py lines 358-395);
`result` is the `(humidity, temperature)` outcome of `read_temp_humidity()`. -/
def update_reading (s : DHT11State) (result : Option (ℚ × ℚ)) (now : Time) :
    DHT11State :=
  match result with
  | none => s
  | some (humidity, temperature) =>
      let s2 := { s with humidity := round2 humidity, temperature := round2 temperature,
                         last_reading_time := some now }
      let s3 :=
        if temperature > s2.temp_high_threshold then
          { s2 with alerts := s2.alerts ++
              [generate_alert s2.sensor_id s2.asset_id now "Temperature Alert"
                ("High temperature detected: " ++ toString temperature ++ "°C")
                "Temperature_High"] }
        else if temperature < s2.temp_low_threshold then
          { s2 with alerts := s2.alerts ++
              [generate_alert s2.sensor_id s2.asset_id now "Temperature Alert"
                ("Low temperature detected: " ++ toString temperature ++ "°C")
                "Temperature_Low"] }
        else s2
      if humidity > s3.humidity_high_threshold then
        { s3 with alerts := s3.alerts ++
            [generate_alert s3.sensor_id s3.asset_id now "Humidity Alert"
              ("High humidity detected: " ++ toString humidity ++ "%")
              "Humidity_High"] }
      else if humidity < s3.humidity_low_threshold then
        { s3 with alerts := s3.alerts ++
            [generate_alert s3.sensor_id s3.asset_id now "Humidity Alert"
              ("Low humidity detected: " ++ toString humidity ++ "%")
              "Humidity_Low"] }
      else s3

/-- The alerts the temperature rule pair (server.py lines 367-380) appends for
a sampled temperature, as a function of the temperature alone. -/
def temp_rule_alerts (s : DHT11State) (temperature : ℚ) (now : Time) : List Alert :=
  if temperature > s.temp_high_threshold then
    [generate_alert s.sensor_id s.asset_id now "Temperature Alert"
      ("High temperature detected: " ++ toString temperature ++ "°C")
      "Temperature_High"]
  else if temperature < s.temp_low_threshold then
    [generate_alert s.sensor_id s.asset_id now "Temperature Alert"
      ("Low temperature detected: " ++ toString temperature ++ "°C")
      "Temperature_Low"]
  else []

/-- The alerts the humidity rule pair (server.py lines 382-395) appends for a
sampled humidity, as a function of the humidity alone. -/
def humidity_rule_alerts (s : DHT11State) (humidity : ℚ) (now : Time) : List Alert :=
  if humidity > s.humidity_high_threshold then
    [generate_alert s.sensor_id s.asset_id now "Humidity Alert"
      ("High humidity detected: " ++ toString humidity ++ "%")
      "Humidity_High"]
  else if humidity < s.humidity_low_threshold then
    [generate_alert s.sensor_id s.asset_id now "Humidity Alert"
      ("Low humidity detected: " ++ toString humidity ++ "%")
      "Humidity_Low"]
  else []

/-- The dictionary returned by `DHT11Sensor.get_reading` (server.py lines
397-409). -/
structure Reading where
  sensor_type : String
  sensor_id : String
  temperature_celsius : ℚ
  temperature_fahrenheit : ℚ
  humidity_percent : ℚ
  timestamp : Option Time
  status : String
  pins_data : ℕ
deriving DecidableEq, Repr

/-- Embedding of `DHT11Sensor.get_reading` (server.py lines 397-409). -/
def get_reading (s : DHT11State) : Reading :=
  { sensor_type := "temperature_humidity"
    sensor_id := s.sensor_id
    temperature_celsius := s.temperature
    temperature_fahrenheit := round2 (s.temperature * 9 / 5 + 32)
    humidity_percent := s.humidity
    timestamp := s.last_reading_time
    status := if s.last_reading_time.isSome then "active" else "no_reading"
    pins_data := s.data_pin }

end DHT11Sensor

/-! ### LDR light sensor (server.py lines 411-527) -/

/-- Mutable state of `LDRSensor` (constructor lines 412-419 plus the
`BaseSensor` fields). -/
structure LDRState where
  sensor_id : String
  asset_id : String
  ldr_pin : ℕ
  light_level : ℕ
  light_percentage : ℚ
  dark_threshold : ℚ
  bright_threshold : ℚ
  last_reading_time : Option Time
  alerts : List Alert
deriving DecidableEq, Repr

namespace LDRSensor

/-- The module-level instance `ldr_sensor = LDRSensor(ldr_pin=21)`
(server.py line 625). -/
def ldr_sensor : LDRState :=
  { sensor_id := "LDR-01"
    asset_id := "LIGHT-SENSOR-01"
    ldr_pin := 21
    light_level := 0
    light_percentage := 0
    dark_threshold := 20
    bright_threshold := 80
    last_reading_time := none
    alerts := [] }

/-- The count-to-percentage conversion inside `LDRSensor.read_light_level`
(server.py lines 461-472): calibration bounds `max_dark = 1000000`,
`min_bright = 1000`, clamped linear interpolation in between. -/
def light_percentage_of_count (raw_reading : ℕ) : ℚ :=
  let max_dark : ℚ := 1000000
  let min_bright : ℚ := 1000
  if (raw_reading : ℚ) ≥ max_dark then 0
  else if (raw_reading : ℚ) ≤ min_bright then 100
  else max 0 (min 100
    (100 * (1 - (((raw_reading : ℚ) - min_bright) / (max_dark - min_bright)))))

/-- Pure tail of `LDRSensor.read_light_level` (server.py lines 458-476), given
the RC discharge count returned by `rc_time()`: a zero count yields the
no-reading result `(None, None)`, otherwise the pair of the raw count and the
rounded percentage.  Simulation mode and driver exceptions also return
`(None, None)` (lines 434-435, 478-480) and are modelled by `none`. -/
def read_light_level (raw_reading : ℕ) : Option (ℕ × ℚ) :=
  if raw_reading > 0 then
    some (raw_reading, round2 (light_percentage_of_count raw_reading))
  else none

/-- Embedding of `LDRSensor.update_reading` (server.py lines 483-507);
`result` is the outcome of `read_light_level()`. -/
def update_reading (s : LDRState) (result : Option (ℕ × ℚ)) (now : Time) : LDRState :=
  match result with
  | none => s
  | some (raw_value, percentage) =>
      let s2 := { s with light_level := raw_value, light_percentage := percentage,
                         last_reading_time := some now }
      if percentage < s2.dark_threshold then
        { s2 with alerts := s2.alerts ++
            [generate_alert s2.sensor_id s2.asset_id now "Light Level Alert"
              ("Dark environment detected: " ++ toString percentage ++ "% light level")
              "Light_Dark"] }
      else if percentage > s2.bright_threshold then
        { s2 with alerts := s2.alerts ++
            [generate_alert s2.sensor_id s2.asset_id now "Light Level Alert"
              ("Very bright environment detected: " ++ toString percentage ++
                "% light level")
              "Light_Bright"] }
      else s2

/-- The dictionary returned by `LDRSensor.get_reading` (server.py lines
509-527). -/
structure Reading where
  sensor_type : String
  sensor_id : String
  light_level_raw : ℕ
  light_percentage : ℚ
  light_condition : String
  timestamp : Option Time
  status : String
  pins_ldr : ℕ
deriving DecidableEq, Repr

/-- Embedding of `LDRSensor.get_reading` (server.py lines 509-527). -/
def get_reading (s : LDRState) : Reading :=
  { sensor_type := "light_sensor"
    sensor_id := s.sensor_id
    light_level_raw := s.light_level
    light_percentage := s.light_percentage
    light_condition :=
      if s.light_percentage < s.dark_threshold then "Dark"
      else if s.light_percentage > s.bright_threshold then "Very Bright"
      else "Normal"
    timestamp := s.last_reading_time
    status := if s.last_reading_time.isSome then "active" else "no_reading"
    pins_ldr := s.ldr_pin }

end LDRSensor

/-! ### Sensor registry and query facade (server.py lines 621-742) -/

/-- The process-wide registry `sensors = {...}` of the five module-level
sensor instances (server.py lines 628-634). -/
structure Sensors where
  ultrasonic : UltrasonicState
  mq135 : MQ135State
  dht11 : DHT11State
  ldr : LDRState
  pir : PIRState
deriving DecidableEq, Repr

/-- The registry as built at module load (server.py lines 621-634). -/
def sensors : Sensors :=
  { ultrasonic := UltrasonicSensor.ultrasonic_sensor
    mq135 := MQ135Sensor.mq135_sensor
    dht11 := DHT11Sensor.dht11_sensor
    ldr := LDRSensor.ldr_sensor
    pir := PIRSensor.pir_sensor }

/-- The keys of the registry dictionary, in insertion order. -/
def sensorKeys : List String := ["ultrasonic", "mq135", "dht11", "ldr", "pir"]

/-- A snapshot of any one sensor, tagged by sensor type. -/
inductive AnyReading where
  | ultrasonic : UltrasonicSensor.Reading → AnyReading
  | mq135 : MQ135Sensor.Reading → AnyReading
  | dht11 : DHT11Sensor.Reading → AnyReading
  | ldr : LDRSensor.Reading → AnyReading
  | pir : PIRSensor.Reading → AnyReading
deriving DecidableEq, Repr

/-- The typed error condition of the single-sensor query endpoints: the
`HTTPException(404, "Sensor type ... not found. Available: ...")` raised at
server.py lines 707-708 and 726-727. -/
inductive ApiError where
  | notFound (sensor_type : String) (available : List String)
deriving DecidableEq, Repr

/-- One round of measurement outcomes, one per sensor; each field is `none`
when that sensor's measurement routine produced no reading this round. -/
structure Samples where
  ultrasonic : Option ℚ
  mq135 : Option (Bool × ℚ)
  dht11 : Option (ℚ × ℚ)
  ldr : Option (ℕ × ℚ)
  pir : Option Bool
deriving DecidableEq, Repr

/-- Embedding of the `GET /sensors/{sensor_type}` handler `get_sensor`
(server.py lines 705-722): unknown keys yield the typed not-found error,
known keys yield that sensor's snapshot.  `now` is the wall-clock time of the
request (used only by the PIR snapshot). -/
def get_sensor (sys : Sensors) (sensor_type : String) (now : Time) :
    Except ApiError AnyReading :=
  if sensor_type = "ultrasonic" then
    .ok (.ultrasonic (UltrasonicSensor.get_reading sys.ultrasonic))
  else if sensor_type = "mq135" then
    .ok (.mq135 (MQ135Sensor.get_reading sys.mq135))
  else if sensor_type = "dht11" then
    .ok (.dht11 (DHT11Sensor.get_reading sys.dht11))
  else if sensor_type = "ldr" then
    .ok (.ldr (LDRSensor.get_reading sys.ldr))
  else if sensor_type = "pir" then
    .ok (.pir (PIRSensor.get_reading sys.pir now))
  else .error (.notFound sensor_type sensorKeys)

/-- Embedding of the `GET /sensors/{sensor_type}/live` handler
`get_live_sensor` (server.py lines 724-742): unknown keys yield the typed
not-found error; known keys run one `update_reading` with this round's
measurement outcome (failures included — `update_reading` absorbs them) and
return the updated registry with the fresh snapshot. -/
def get_live_sensor (sys : Sensors) (sensor_type : String) (samples : Samples)
    (now : Time) : Except ApiError (Sensors × AnyReading) :=
  if sensor_type = "ultrasonic" then
    let sys2 := { sys with
      ultrasonic := UltrasonicSensor.update_reading sys.ultrasonic samples.ultrasonic now }
    .ok (sys2, .ultrasonic (UltrasonicSensor.get_reading sys2.ultrasonic))
  else if sensor_type = "mq135" then
    let sys2 := { sys with
      mq135 := MQ135Sensor.update_reading sys.mq135 samples.mq135 now }
    .ok (sys2, .mq135 (MQ135Sensor.get_reading sys2.mq135))
  else if sensor_type = "dht11" then
    let sys2 := { sys with
      dht11 := DHT11Sensor.update_reading sys.dht11 samples.dht11 now }
    .ok (sys2, .dht11 (DHT11Sensor.get_reading sys2.dht11))
  else if sensor_type = "ldr" then
    let sys2 := { sys with
      ldr := LDRSensor.update_reading sys.ldr samples.ldr now }
    .ok (sys2, .ldr (LDRSensor.get_reading sys2.ldr))
  else if sensor_type = "pir" then
    let sys2 := { sys with
      pir := PIRSensor.update_reading sys.pir samples.pir now }
    .ok (sys2, .pir (PIRSensor.get_reading sys2.pir now))
  else .error (.notFound sensor_type sensorKeys)

/-- Python `alerts[-10:]`: the up-to-10 most recently appended alerts of one
sensor's append-only log. -/
def lastTen (l : List Alert) : List Alert := l.drop (l.length - 10)

/-- The five per-sensor alert logs, in the registry's iteration order
(`sensors.values()` at server.py line 688). -/
def sensorAlertLogs (sys : Sensors) : List (List Alert) :=
  [sys.ultrasonic.alerts, sys.mq135.alerts, sys.dht11.alerts, sys.ldr.alerts,
    sys.pir.alerts]

/-- Embedding of the `GET /sensors/alerts` handler `get_sensor_alerts`
(server.py lines 684-703): collect each sensor's `alerts[-10:]`, then
`sort(key=Date, reverse=True)` — i.e. by generation time descending.  (The
Python code sorts the ISO-format `Date` strings, which compare exactly like
the timestamps they encode.) -/
def get_sensor_alerts (sys : Sensors) : List Alert :=
  let all_alerts := ((sensorAlertLogs sys).map lastTen).flatten
  all_alerts.mergeSort (fun x y => decide (y.Date ≤ x.Date))

/-- Transition counter written from the specification's words: one increment
per `false → true` transition of the sampled motion value, starting from the
previous stored `motion_detected` flag.  Used to compare the embedded
`PIRSensor.update_reading` against the spec's edge-trigger description. -/
def specTransitionCount : Bool → List Bool → ℕ
  | _, [] => 0
  | prev, m :: ms => (if m && !prev then 1 else 0) + specTransitionCount m ms

/-- Helper: one successful motion sample increments `motion_count` exactly on
a `false → true` edge and stores the sampled value in `motion_detected`. -/
theorem PIRSensor.update_some_motion_count (s : PIRState) (m : Bool) (t : Time) :
    (PIRSensor.update_reading s (some m) t).motion_count
        = s.motion_count + (if m && !s.motion_detected then 1 else 0) ∧
      (PIRSensor.update_reading s (some m) t).motion_detected = m := by
  cases m <;> cases hmd : s.motion_detected <;>
    simp [PIRSensor.update_reading, hmd] <;>
    cases s.last_motion_time <;> simp <;> split <;> simp

/-- Helper: over any sample sequence, the lifetime counter grows by exactly
the number of `false → true` transitions. -/
theorem PIRSensor.run_motion_count (s : PIRState) (samples : List (Bool × Time)) :
    (PIRSensor.run s samples).motion_count
      = s.motion_count + specTransitionCount s.motion_detected (samples.map Prod.fst) := by
  induction samples generalizing s with
  | nil => simp [PIRSensor.run, specTransitionCount]
  | cons p ps ih =>
      obtain ⟨hc, hd⟩ := PIRSensor.update_some_motion_count s p.1 p.2
      have hrun : PIRSensor.run s (p :: ps)
          = PIRSensor.run (PIRSensor.update_reading s (some p.1) p.2) ps := rfl
      rw [hrun, ih, hc, hd]
      simp [specTransitionCount]
      omega

/-- Claim C1 (code_bug evaluation): a failed PIR sample (`read_motion`
returning `None`, e.g. in simulation mode) does NOT leave the stored state
unchanged — `update_reading` overwrites `last_reading_time` with the failed
sample's time and resets `motion_detected` to `false`, erasing the previously
good values stored by a successful `motion = True` sample at time 0. -/
theorem pir_failed_sample_overwrites_state :
    ((PIRSensor.update_reading PIRSensor.pir_sensor (some true) 0).last_reading_time = some 0 ∧
      (PIRSensor.update_reading PIRSensor.pir_sensor (some true) 0).motion_detected = true) ∧
    ((PIRSensor.update_reading
        (PIRSensor.update_reading PIRSensor.pir_sensor (some true) 0) none 5).last_reading_time
        = some 5 ∧
      (PIRSensor.update_reading
        (PIRSensor.update_reading PIRSensor.pir_sensor (some true) 0) none 5).motion_detected
        = false) := by
  refine ⟨⟨?_, ?_⟩, ?_, ?_⟩ <;>
    simp [PIRSensor.update_reading, PIRSensor.pir_sensor] <;> norm_num

/-- Claim C2 (code_bug evaluation): a freshly constructed PIR sensor reports
`no_reading`, but after a single FAILED sample (`read_motion` returning
`None`) its snapshot status is already `active`, although no successful
sample has ever occurred — because `update_reading` sets `last_reading_time`
unconditionally before testing the sample. -/
theorem pir_status_active_without_successful_sample :
    (PIRSensor.get_reading PIRSensor.pir_sensor 0).status = "no_reading" ∧
    (PIRSensor.get_reading
        (PIRSensor.update_reading PIRSensor.pir_sensor none 0) 0).status = "active" := by
  constructor <;>
    simp [PIRSensor.get_reading, PIRSensor.update_reading, PIRSensor.pir_sensor]

/-- Claim C3: the lifetime motion counter is incremented exactly once per
`false → true` transition of the sampled value (never on a `true` sample that
follows a prior `true`); in particular the sample sequence
`false, false, true, true, false, true` increments it exactly twice. -/
theorem pir_motion_count_edge_triggered :
    (∀ (s : PIRState) (samples : List (Bool × Time)),
      (PIRSensor.run s samples).motion_count
        = s.motion_count + specTransitionCount s.motion_detected (samples.map Prod.fst)) ∧
    (PIRSensor.run PIRSensor.pir_sensor
      [(false, 1), (false, 2), (true, 3), (true, 4), (false, 5), (true, 6)]).motion_count = 2 := by
  refine ⟨PIRSensor.run_motion_count, ?_⟩
  rw [PIRSensor.run_motion_count]
  simp [PIRSensor.pir_sensor, specTransitionCount]

/-- Claim C6 (counterexample): PIR snapshots taken at wall-clock times 1 and 2
without an intervening update are NOT identical — the
`time_since_motion_seconds` field is recomputed from the current clock on
every `get_reading` call (server.py line 607). -/
theorem pir_snapshot_not_idempotent :
    PIRSensor.get_reading (PIRSensor.update_reading PIRSensor.pir_sensor (some true) 0) 1 ≠
    PIRSensor.get_reading (PIRSensor.update_reading PIRSensor.pir_sensor (some true) 0) 2 := by
  intro h
  have h2 := congrArg PIRSensor.Reading.time_since_motion_seconds h
  simp [PIRSensor.get_reading, PIRSensor.update_reading, PIRSensor.pir_sensor, round2] at h2
  norm_num at h2

/-- Claim C4: echo ranging computes `pulse_duration * 34300 / 2` cm, returns
it (rounded to 2 decimals) exactly when it lies in [2, 400] and discards it as
no reading otherwise; a 1 ms round trip gives 17.15 cm, while computed
distances of 1 cm and 450 cm give no reading. -/
theorem ultrasonic_distance_range_check :
    UltrasonicSensor.measure_distance 0 (1/1000) = some (17.15 : ℚ) ∧
    UltrasonicSensor.measure_distance 0 (2/34300) = none ∧
    UltrasonicSensor.measure_distance 0 (900/34300) = none ∧
    (∀ tS tE : Time, (UltrasonicSensor.measure_distance tS tE).isSome ↔
        (2 ≤ (tE - tS) * 34300 / 2 ∧ (tE - tS) * 34300 / 2 ≤ 400)) ∧
    (∀ (tS tE : Time) (d : ℚ), UltrasonicSensor.measure_distance tS tE = some d →
        d = round2 ((tE - tS) * 34300 / 2)) := by
  refine ⟨?_, ?_, ?_, ?_, ?_⟩
  · simp only [UltrasonicSensor.measure_distance, round2]
    norm_num [round_eq]
  · simp only [UltrasonicSensor.measure_distance]
    norm_num
  · simp only [UltrasonicSensor.measure_distance]
    norm_num
  · intro tS tE
    simp only [UltrasonicSensor.measure_distance]
    split <;> simp_all
  · intro tS tE d hd
    simp only [UltrasonicSensor.measure_distance] at hd
    split at hd
    · exact (Option.some_inj.mp hd).symm
    · exact absurd hd (by simp)

/-- Witness for C4: the 1 ms round-trip pulse is a concrete reading whose
computed distance lies in range and equals the rounded formula value. -/
theorem ultrasonic_distance_range_check_witness :
    (UltrasonicSensor.measure_distance 0 (1/1000)).isSome ∧
    ((2 : ℚ) ≤ (1/1000 - 0) * 34300 / 2 ∧ ((1/1000 : ℚ) - 0) * 34300 / 2 ≤ 400) ∧
    (17.15 : ℚ) = round2 (((1/1000 : ℚ) - 0) * 34300 / 2) := by
  have h1 := ultrasonic_distance_range_check.1
  have h5 := ultrasonic_distance_range_check.2.2.2.2 0 (1/1000) 17.15 h1
  have hsome : (UltrasonicSensor.measure_distance 0 (1/1000)).isSome := by rw [h1]; rfl
  exact ⟨hsome, (ultrasonic_distance_range_check.2.2.2.1 0 (1/1000)).mp hsome, h5⟩

/-- Helper: the RC count-to-percentage interpolation of the LDR sensor is
antitone in the discharge count. -/
theorem light_pct_antitone {c1 c2 : ℕ} (h : c1 ≤ c2) :
    LDRSensor.light_percentage_of_count c2 ≤ LDRSensor.light_percentage_of_count c1 := by
  have hc : (c1 : ℚ) ≤ (c2 : ℚ) := by exact_mod_cast h
  unfold LDRSensor.light_percentage_of_count
  dsimp only
  split_ifs with h1 h2 h3 h4 h5 h6 h7 h8 <;> try linarith
  · exact le_max_left _ _
  · exact max_le (by norm_num) (min_le_left _ _)
  · refine max_le_max (le_refl 0) (min_le_min (le_refl 100) ?_)
    have hf : ((c1 : ℚ) - 1000) / (1000000 - 1000) ≤ ((c2 : ℚ) - 1000) / (1000000 - 1000) := by
      linarith
    linarith

/-- Helper: rounding to 2 decimal places is monotone. -/
theorem round2_mono {x y : ℚ} (h : x ≤ y) : round2 x ≤ round2 y := by
  unfold round2
  have h1 : round (x * 100) ≤ round (y * 100) := by
    rw [round_eq, round_eq]
    exact Int.floor_mono (by linarith)
  have h2 : ((round (x * 100) : ℤ) : ℚ) ≤ ((round (y * 100) : ℤ) : ℚ) := by exact_mod_cast h1
  linarith

/-- Claim C5: for the fixed calibration bounds, the RC discharge-count to
light-percentage mapping is antitone — of two counts that each produce a
reading, the strictly smaller count never yields the strictly smaller
percentage — and counts at or beyond the bounds (`count ≥ 1000000`,
`0 < count ≤ 1000`) clamp to 0 and 100 respectively. -/
theorem ldr_percentage_antitone_clamped :
    (∀ (c1 c2 : ℕ) (p1 p2 : ℚ), c1 < c2 →
        LDRSensor.read_light_level c1 = some (c1, p1) →
        LDRSensor.read_light_level c2 = some (c2, p2) → p2 ≤ p1) ∧
    (∀ c : ℕ, 1000000 ≤ c → LDRSensor.read_light_level c = some (c, 0)) ∧
    (∀ c : ℕ, 0 < c → c ≤ 1000 → LDRSensor.read_light_level c = some (c, 100)) := by
  refine ⟨?_, ?_, ?_⟩
  · intro c1 c2 p1 p2 hlt h1 h2
    simp only [LDRSensor.read_light_level] at h1 h2
    split at h1
    · split at h2
      · obtain ⟨-, hp1⟩ := Prod.mk.injEq .. ▸ Option.some_inj.mp h1
        obtain ⟨-, hp2⟩ := Prod.mk.injEq .. ▸ Option.some_inj.mp h2
        subst hp1 hp2
        exact round2_mono (light_pct_antitone hlt.le)
      · exact absurd h2 (by simp)
    · exact absurd h1 (by simp)
  · intro c hc
    have hpos : c > 0 := by omega
    have hge : ((c : ℚ)) ≥ 1000000 := by exact_mod_cast hc
    simp only [LDRSensor.read_light_level, hpos, if_true]
    have hzero : LDRSensor.light_percentage_of_count c = 0 := by
      unfold LDRSensor.light_percentage_of_count
      dsimp only
      rw [if_pos hge]
    rw [hzero]
    simp [round2]
  · intro c hpos hle
    have hle' : ((c : ℚ)) ≤ 1000 := by exact_mod_cast hle
    have hlt' : ¬ ((c : ℚ) ≥ 1000000) := by
      push_neg
      linarith
    simp only [LDRSensor.read_light_level, hpos, if_true]
    have hfull : LDRSensor.light_percentage_of_count c = 100 := by
      unfold LDRSensor.light_percentage_of_count
      dsimp only
      rw [if_neg hlt', if_pos hle']
    rw [hfull]
    have hr : round2 100 = 100 := by
      unfold round2
      rw [round_eq]
      norm_num
    rw [hr]

/-- Witness for C5: the calibration-bound counts 1000 and 1000000 both
produce readings (100% and 0%), and the larger count's percentage is not
larger. -/
theorem ldr_percentage_antitone_clamped_witness :
    (1000 : ℕ) < 1000000 ∧
    LDRSensor.read_light_level 1000 = some (1000, 100) ∧
    LDRSensor.read_light_level 1000000 = some (1000000, 0) ∧
    (0 : ℚ) ≤ 100 := by
  have h2 := ldr_percentage_antitone_clamped.2.2 1000 (by norm_num) (by norm_num)
  have h3 := ldr_percentage_antitone_clamped.2.1 1000000 (by norm_num)
  exact ⟨by norm_num, h2, h3,
    ldr_percentage_antitone_clamped.1 1000 1000000 100 0 (by norm_num) h2 h3⟩

/-- Helper: one successful DHT11 sample appends exactly the temperature-rule
alerts followed by the humidity-rule alerts, each a function of its own
sampled value alone. -/
theorem DHT11Sensor.update_alerts_decomp (s : DHT11State) (h t : ℚ) (now : Time) :
    (DHT11Sensor.update_reading s (some (h, t)) now).alerts
      = s.alerts ++ DHT11Sensor.temp_rule_alerts s t now
          ++ DHT11Sensor.humidity_rule_alerts s h now := by
  simp only [DHT11Sensor.update_reading, DHT11Sensor.temp_rule_alerts,
    DHT11Sensor.humidity_rule_alerts]
  split_ifs <;> simp [List.append_assoc]

/-- Claim C7: with `temp_high_threshold = 35`, a sampled temperature of 36 °C
appends exactly one `Temperature_High` alert and zero `Temperature_Low`
alerts in that update, whatever the sampled humidity; and in every update the
appended alerts decompose into the temperature rule pair's output followed by
the humidity rule pair's output, each evaluated independently. -/
theorem dht11_high_temp_alert_once (s : DHT11State) (h now : ℚ)
    (hthr : s.temp_high_threshold = 35) :
    (((DHT11Sensor.update_reading s (some (h, 36)) now).alerts.drop s.alerts.length).countP
        (fun a => a.Failure_x0020_Class == "Temperature_High") = 1) ∧
    (((DHT11Sensor.update_reading s (some (h, 36)) now).alerts.drop s.alerts.length).countP
        (fun a => a.Failure_x0020_Class == "Temperature_Low") = 0) ∧
    (∀ h2 t2 : ℚ, (DHT11Sensor.update_reading s (some (h2, t2)) now).alerts
        = s.alerts ++ DHT11Sensor.temp_rule_alerts s t2 now
            ++ DHT11Sensor.humidity_rule_alerts s h2 now) := by
  have hdrop : ∀ h2 t2 : ℚ,
      (DHT11Sensor.update_reading s (some (h2, t2)) now).alerts.drop s.alerts.length
        = DHT11Sensor.temp_rule_alerts s t2 now
            ++ DHT11Sensor.humidity_rule_alerts s h2 now := by
    intro h2 t2
    rw [DHT11Sensor.update_alerts_decomp, List.append_assoc, List.drop_left]
  have htemp : DHT11Sensor.temp_rule_alerts s 36 now
      = [generate_alert s.sensor_id s.asset_id now "Temperature Alert"
          ("High temperature detected: " ++ toString (36 : ℚ) ++ "°C")
          "Temperature_High"] := by
    unfold DHT11Sensor.temp_rule_alerts
    rw [if_pos (by rw [hthr]; norm_num)]
  have hhumcount : ∀ cls : String, cls = "Temperature_High" ∨ cls = "Temperature_Low" →
      (DHT11Sensor.humidity_rule_alerts s h now).countP
        (fun a => a.Failure_x0020_Class == cls) = 0 := by
    intro cls hcls
    unfold DHT11Sensor.humidity_rule_alerts
    split_ifs <;> rcases hcls with rfl | rfl <;> simp [generate_alert]
  refine ⟨?_, ?_, fun h2 t2 => DHT11Sensor.update_alerts_decomp s h2 t2 now⟩
  · rw [hdrop, List.countP_append, htemp, hhumcount _ (Or.inl rfl)]
    simp [generate_alert]
  · rw [hdrop, List.countP_append, htemp, hhumcount _ (Or.inr rfl)]
    simp [generate_alert]

/-- Witness for C7: the module-level DHT11 instance (whose high threshold is
35) with sampled humidity 50 and temperature 36 at time 0. -/
theorem dht11_high_temp_alert_once_witness :
    DHT11Sensor.dht11_sensor.temp_high_threshold = 35 ∧
    (((DHT11Sensor.update_reading DHT11Sensor.dht11_sensor (some (50, 36)) 0).alerts.drop
        DHT11Sensor.dht11_sensor.alerts.length).countP
        (fun a => a.Failure_x0020_Class == "Temperature_High") = 1) ∧
    (((DHT11Sensor.update_reading DHT11Sensor.dht11_sensor (some (50, 36)) 0).alerts.drop
        DHT11Sensor.dht11_sensor.alerts.length).countP
        (fun a => a.Failure_x0020_Class == "Temperature_Low") = 0) := by
  obtain ⟨a, b, -⟩ := dht11_high_temp_alert_once DHT11Sensor.dht11_sensor 50 0 rfl
  exact ⟨rfl, a, b⟩

/-- Claim C8: the aggregate recent-alerts query returns a permutation of the
per-sensor `alerts[-10:]` slices merged across all sensors, sorted by
generation time descending; each slice is a suffix of that sensor's
append-only log of length `min 10 (log length)` — i.e. its up-to-10 most
recently generated alerts. -/
theorem recent_alerts_top10_sorted :
    (∀ sys : Sensors,
      (get_sensor_alerts sys).Perm (((sensorAlertLogs sys).map lastTen).flatten)) ∧
    (∀ sys : Sensors,
      (get_sensor_alerts sys).Pairwise (fun x y => y.Date ≤ x.Date)) ∧
    (∀ l : List Alert, lastTen l <:+ l ∧ (lastTen l).length = min 10 l.length) := by
  refine ⟨?_, ?_, ?_⟩
  · intro sys
    exact List.mergeSort_perm _ _
  · intro sys
    have hs := @List.sorted_mergeSort Alert
      (fun x y : Alert => decide (y.Date ≤ x.Date))
      (fun a b c hab hbc => by
        simp only [decide_eq_true_eq] at *
        exact le_trans hbc hab)
      (fun a b => by
        simp only [Bool.or_eq_true, decide_eq_true_eq]
        exact le_total b.Date a.Date)
      (((sensorAlertLogs sys).map lastTen).flatten)
    exact hs.imp (fun hx => of_decide_eq_true hx)
  · intro l
    exact ⟨List.drop_suffix _ _, by simp [lastTen]; omega⟩

/-- Claim C9: the single-sensor query operations fail exactly on identifiers
outside the registry, the failure is always the typed not-found condition,
and known identifiers always succeed — in particular `get_live_sensor`
succeeds for every measurement outcome, failed samples included, because
`update_reading` absorbs them. -/
theorem query_facade_not_found_only_error :
    (∀ (sys : Sensors) (name : String) (now : Time),
        (∃ e, get_sensor sys name now = .error e) ↔ name ∉ sensorKeys) ∧
    (∀ (sys : Sensors) (name : String) (samples : Samples) (now : Time),
        (∃ e, get_live_sensor sys name samples now = .error e) ↔ name ∉ sensorKeys) ∧
    (∀ (sys : Sensors) (name : String) (now : Time) (e : ApiError),
        get_sensor sys name now = .error e → e = .notFound name sensorKeys) ∧
    (∀ (sys : Sensors) (name : String) (samples : Samples) (now : Time) (e : ApiError),
        get_live_sensor sys name samples now = .error e → e = .notFound name sensorKeys) := by
  refine ⟨?_, ?_, ?_, ?_⟩
  · intro sys name now
    simp only [get_sensor, sensorKeys]
    split_ifs <;> simp_all
  · intro sys name samples now
    simp only [get_live_sensor, sensorKeys]
    split_ifs <;> simp_all
  · intro sys name now e
    simp only [get_sensor]
    split_ifs <;> simp_all
  · intro sys name samples now e
    simp only [get_live_sensor]
    split_ifs <;> simp_all

/-- Witness for C9: the unknown identifier `bogus` against the module-level
registry, with an all-failed measurement round for the live query. -/
theorem query_facade_not_found_only_error_witness :
    ("bogus" ∉ sensorKeys) ∧
    get_sensor sensors "bogus" 0 = .error (.notFound "bogus" sensorKeys) ∧
    (∃ e, get_live_sensor sensors "bogus"
        { ultrasonic := none, mq135 := none, dht11 := none, ldr := none, pir := none } 0
      = .error e) := by
  have hmem : "bogus" ∉ sensorKeys := by decide
  obtain ⟨e, he⟩ := (query_facade_not_found_only_error.1 sensors "bogus" 0).mpr hmem
  have he2 := query_facade_not_found_only_error.2.2.1 sensors "bogus" 0 e he
  refine ⟨hmem, he2 ▸ he, (query_facade_not_found_only_error.2.1 sensors "bogus" _ 0).mpr hmem⟩

/-- Claim C10: an RC discharge count of exactly 0 produces no reading for the
light sensor — `read_light_level` returns the no-reading result rather than
clamping to the 100% value — and feeding that outcome to `update_reading`
leaves the stored state (value fields, timestamp and alerts alike) unchanged. -/
theorem ldr_zero_count_preserves_state :
    LDRSensor.read_light_level 0 = none ∧
    ∀ (s : LDRState) (now : Time),
      LDRSensor.update_reading s (LDRSensor.read_light_level 0) now = s := by
  constructor
  · simp [LDRSensor.read_light_level]
  · intro s now
    simp [LDRSensor.read_light_level, LDRSensor.update_reading]

/-- Claim C6 (amended): repeated PIR snapshots without an intervening update
agree on every field except `time_since_motion_seconds`, the one field derived
from the query-time clock; every other sensor's `get_reading` reads only
stored state (none of them takes the clock as an input in this embedding), so
their snapshots are literally pure functions of the state. -/
theorem pir_snapshot_stable_except_clock :
    ∀ (s : PIRState) (n1 n2 : Time),
      { PIRSensor.get_reading s n1 with time_since_motion_seconds := none } =
      { PIRSensor.get_reading s n2 with time_since_motion_seconds := none } := by
  intro s n1 n2
  simp [PIRSensor.get_reading]

end SensorServer
